import Mathlib

/-!
Shallow embedding of `src/pandas_standard.py` (the reference pandas adapter of
the dataframe interchange protocol).  Cell values are modelled by `Val`
(integers, booleans, the float `NaN` payload and the extension-dtype missing
marker `pd.NA`); a pandas `Series` is a named, typed, indexed list of values;
a pandas `DataFrame` and the wrapper `PandasDataFrame` share the carrier
`PandasDataFrame` below (an ordered list of named, typed columns over a
canonical positional index `0..nrows-1`).  The wrapper's constructor resets
any non-canonical index (its fast-path test `stop == len(df) - 1` never
matches a canonical `RangeIndex`, whose `stop` equals `len(df)`, so
`reset_index(drop=True)` always runs; the observable index of a wrapped frame
is therefore always `0, 1, ..., nrows-1` and is not stored explicitly).

Engine-level behaviour that the adapter calls into (pandas / numpy) is
modelled where the adapter's contract depends on it: `iloc` positional
lookup, `isna` masks, `Series.__bool__` (which unconditionally raises
`ValueError`), group partitioning with `dropna=True`, and sorting.  Pure
reduction kernels (the cell functions of `+`, `==`, `mean`, ...) are
out-of-scope capabilities per the specification and enter as parameters.
-/

/-- A cell value: an integer, a boolean, the floating-point `NaN`, or the
extension-dtype missing marker `pd.NA`.  Extension ("nullable") columns
represent a masked-out entry by `na`; a genuine unmasked float `NaN` is `nan`. -/
inductive Val where
  | int : Int → Val
  | bool : Bool → Val
  | nan : Val
  | na : Val
deriving DecidableEq

/-- Column dtypes used by the adapter: plain numpy dtypes and the pandas
extension ("nullable") dtypes. -/
inductive DType where
  | int64 : DType
  | float64 : DType
  | boolean : DType
  | nullableInt64 : DType
  | nullableFloat64 : DType
  | nullableBool : DType
deriving DecidableEq

/-- Models `pandas.api.types.is_extension_array_dtype`. -/
def DType.isExtension : DType → Bool
  | .nullableInt64 => true
  | .nullableFloat64 => true
  | .nullableBool => true
  | _ => false

/-- A pandas index label: a position (`RangeIndex` entry), a group-key tuple
(the index produced by `groupby(...).size()`), or a column label (the index of
a `dtypes` series). -/
inductive Idx where
  | pos : Nat → Idx
  | keys : List Val → Idx
  | lab : String → Idx
deriving DecidableEq

/-- The canonical positional index `0, 1, ..., n-1` (a `RangeIndex`). -/
def defaultIdx (n : Nat) : List Idx := (List.range n).map Idx.pos

/-- The Python exceptions raised by the adapter and by the engine calls it
makes. -/
inductive PdError where
  | valueError : String → PdError
  | typeError : String → PdError
  | keyError : String → PdError
  | indexError : String → PdError
  | runtimeError : String → PdError
  | notImplementedError : String → PdError
  | assertionError : String → PdError
  | attributeError : String → PdError
deriving DecidableEq

/-- A pandas `Series`: name, dtype, index and data.  Well-formed series have
`index.length = data.length`. -/
structure PdSeries where
  name : String
  dtype : DType
  index : List Idx
  data : List Val
deriving DecidableEq

/-- One named column of a dataframe (label, dtype, cell values). -/
structure PdCol where
  name : String
  dtype : DType
  data : List Val
deriving DecidableEq

/-- The carrier shared by `pd.DataFrame` and the wrapper `PandasDataFrame`:
an ordered list of columns over the canonical positional index, together with
the row count (kept explicitly so that zero-column frames retain their
length). -/
structure PandasDataFrame where
  cols : List PdCol
  nrows : Nat
deriving DecidableEq

/-- Well-formedness: unique column labels, and every column has `nrows`
cells. -/
def PandasDataFrame.WF (d : PandasDataFrame) : Prop :=
  (d.cols.map PdCol.name).Nodup ∧ ∀ c ∈ d.cols, c.data.length = d.nrows

instance (d : PandasDataFrame) : Decidable d.WF := by
  unfold PandasDataFrame.WF; infer_instance

/-- Models `PandasDataFrame.get_column_names` (`self.dataframe.columns.tolist()`). -/
def PandasDataFrame.colNames (d : PandasDataFrame) : List String :=
  d.cols.map PdCol.name

/-- Models `PandasDataFrame.shape` (`self.dataframe.shape`: rows, columns). -/
def PandasDataFrame.shape (d : PandasDataFrame) : Nat × Nat :=
  (d.nrows, d.cols.length)

/-- The observable index of a wrapped frame; always canonical (see the module
comment on the constructor's `reset_index`). -/
def PandasDataFrame.indexList (d : PandasDataFrame) : List Idx :=
  defaultIdx d.nrows

/-- Models the constructor `PandasDataFrame.__init__` together with
`_validate_columns`: duplicate labels raise `ValueError` (the non-string
label branch of `_validate_columns`, a Python dynamic-typing guard, is not
representable: labels are `String` here); the index is reset to the canonical
positional index, which the carrier keeps implicitly.  The source message
interpolates the offending label and its count; the model elides the count. -/
def mkDF (cols : List PdCol) (n : Nat) : Except PdError PandasDataFrame :=
  if (cols.map PdCol.name).Nodup then .ok ⟨cols, n⟩
  else .error (.valueError "Expected unique column names")

/-- The wrapper `PandasColumn`, holding one pandas series. -/
structure PandasColumn where
  series : PdSeries
deriving DecidableEq

/-- Models `PandasColumn.__getitem__`, i.e. `self._series.iloc[row]`: pandas
positional lookup resolves a negative `row` to `len + row`, returns the cell
when the resolved position is in range and raises `IndexError` otherwise.
(`getD`'s default is never reached in range.) -/
def PandasColumn.getitem (c : PandasColumn) (row : Int) : Except PdError Val :=
  let n : Int := (c.series.data.length : Int)
  let i : Int := if row < 0 then n + row else row
  if 0 ≤ i ∧ i < n then .ok (c.series.data.getD i.toNat Val.na)
  else .error (.indexError "single positional indexer is out-of-bounds")

/-- Models `pd.isna` on one cell of a series of dtype `dt`: on an extension
dtype the engine returns the missing-value mask (`true` exactly at `pd.NA`;
an unmasked float `NaN` is not masked), on a plain dtype it flags the float
`NaN` (and any generic missing marker). -/
def isnaCell (dt : DType) (v : Val) : Bool :=
  if dt.isExtension then decide (v = Val.na)
  else decide (v = Val.nan) || decide (v = Val.na)

/-- Models `PandasColumn.isnan`, i.e. `self._series.isna()`: the engine's
generic missing-value test, keeping name and index; result dtype is plain
`bool`. -/
def PandasColumn.isnan (c : PandasColumn) : PandasColumn :=
  ⟨⟨c.series.name, .boolean, c.series.index,
    c.series.data.map (fun v => Val.bool (isnaCell c.series.dtype v))⟩⟩

/-- Models `PandasColumn.isnull`: on an extension dtype, `self._series.isnull()`
(the missing-value mask); otherwise a fresh all-`False` series
`pd.Series(np.array([False] * len(self)))` (unnamed, canonical index). -/
def PandasColumn.isnull (c : PandasColumn) : PandasColumn :=
  if c.series.dtype.isExtension then
    ⟨⟨c.series.name, .boolean, c.series.index,
      c.series.data.map (fun v => Val.bool (decide (v = Val.na)))⟩⟩
  else
    ⟨⟨"", .boolean, defaultIdx c.series.data.length,
      List.replicate c.series.data.length (Val.bool false)⟩⟩

/-- Numpy truthiness of one cell, as used by `Series.any` / `Series.all` on
the boolean series the adapter reduces (nonzero numbers and `NaN` are truthy). -/
def truthy : Val → Bool
  | .bool b => b
  | .int n => decide (n ≠ 0)
  | .nan => true
  | .na => true

/-- Models `PandasColumn.any` (`self._series.any()`); on an empty series the
reduction is vacuously `false`. -/
def PandasColumn.any (c : PandasColumn) : Bool :=
  c.series.data.any truthy

/-- Models `PandasColumn.all` (`self._series.all()`); on an empty series the
reduction is vacuously `true`. -/
def PandasColumn.all (c : PandasColumn) : Bool :=
  c.series.data.all truthy

/-- The right-hand operand of a dataframe dunder: either another wrapped
dataframe or a scalar (Python duck typing narrowed to the two cases the
adapter distinguishes via `isinstance(other, PandasDataFrame)`). -/
inductive Comparand where
  | df : PandasDataFrame → Comparand
  | scalar : Val → Comparand

/-- Models `PandasDataFrame._validate_comparand`: when `other` is a wrapped
dataframe, require equal index, equal shape and equal column labels in order,
else raise `ValueError`; any non-dataframe operand passes unchecked
(`isinstance` is `False`). -/
def validateComparand (self : PandasDataFrame) (other : Comparand) :
    Except PdError Unit :=
  match other with
  | .df o =>
      if self.indexList = o.indexList ∧ self.shape = o.shape ∧
          self.colNames = o.colNames then .ok ()
      else .error (.valueError
        "Expected DataFrame with same length, matching columns, and matching index.")
  | .scalar _ => .ok ()

/-- Pointwise application of an engine cell kernel to two frames that passed
the alignment check (same labels in the same order, same shape): pandas pairs
the columns label by label, which after validation is positional pairing.
`rdt` is the engine's result-dtype rule. -/
def enginePointwise (cell : Val → Val → Val) (rdt : DType → DType → DType)
    (a b : PandasDataFrame) : List PdCol :=
  List.zipWith
    (fun c1 c2 => ⟨c1.name, rdt c1.dtype c2.dtype, List.zipWith cell c1.data c2.data⟩)
    a.cols b.cols

/-- The shared body of every comparison/arithmetic dunder of
`PandasDataFrame`: `self._validate_comparand(other)` followed by the body
`PandasDataFrame(self.dataframe.<op>(other.dataframe))`.  For a dataframe
operand this delegates to the engine's elementwise kernel (`cell`, with
result-dtype rule `rdt` — the capability the specification leaves out of
scope) and re-wraps through the constructor; for any non-dataframe operand
the unconditional `other.dataframe` attribute access raises
`AttributeError` before any engine call (Python's message cites the
operand's type, elided here).  Each dunder below instantiates this body
with its own kernel. -/
def binOpImpl (cell : Val → Val → Val) (rdt : DType → DType → DType)
    (self : PandasDataFrame) (other : Comparand) : Except PdError PandasDataFrame := do
  validateComparand self other
  match other with
  | .df o => mkDF (enginePointwise cell rdt self o) self.nrows
  | .scalar _ => .error (.attributeError "object has no attribute dataframe")

/-- Models `PandasDataFrame.__eq__`. -/
def PandasDataFrame.eqOp (cell : Val → Val → Val) (rdt : DType → DType → DType)
    (self : PandasDataFrame) (other : Comparand) : Except PdError PandasDataFrame :=
  binOpImpl cell rdt self other

/-- Models `PandasDataFrame.__ne__`. -/
def PandasDataFrame.neOp (cell : Val → Val → Val) (rdt : DType → DType → DType)
    (self : PandasDataFrame) (other : Comparand) : Except PdError PandasDataFrame :=
  binOpImpl cell rdt self other

/-- Models `PandasDataFrame.__ge__`. -/
def PandasDataFrame.geOp (cell : Val → Val → Val) (rdt : DType → DType → DType)
    (self : PandasDataFrame) (other : Comparand) : Except PdError PandasDataFrame :=
  binOpImpl cell rdt self other

/-- Models `PandasDataFrame.__gt__`. -/
def PandasDataFrame.gtOp (cell : Val → Val → Val) (rdt : DType → DType → DType)
    (self : PandasDataFrame) (other : Comparand) : Except PdError PandasDataFrame :=
  binOpImpl cell rdt self other

/-- Models `PandasDataFrame.__le__`. -/
def PandasDataFrame.leOp (cell : Val → Val → Val) (rdt : DType → DType → DType)
    (self : PandasDataFrame) (other : Comparand) : Except PdError PandasDataFrame :=
  binOpImpl cell rdt self other

/-- Models `PandasDataFrame.__lt__`. -/
def PandasDataFrame.ltOp (cell : Val → Val → Val) (rdt : DType → DType → DType)
    (self : PandasDataFrame) (other : Comparand) : Except PdError PandasDataFrame :=
  binOpImpl cell rdt self other

/-- Models `PandasDataFrame.__add__`. -/
def PandasDataFrame.addOp (cell : Val → Val → Val) (rdt : DType → DType → DType)
    (self : PandasDataFrame) (other : Comparand) : Except PdError PandasDataFrame :=
  binOpImpl cell rdt self other

/-- Models `PandasDataFrame.__sub__`. -/
def PandasDataFrame.subOp (cell : Val → Val → Val) (rdt : DType → DType → DType)
    (self : PandasDataFrame) (other : Comparand) : Except PdError PandasDataFrame :=
  binOpImpl cell rdt self other

/-- Models `PandasDataFrame.__mul__`. -/
def PandasDataFrame.mulOp (cell : Val → Val → Val) (rdt : DType → DType → DType)
    (self : PandasDataFrame) (other : Comparand) : Except PdError PandasDataFrame :=
  binOpImpl cell rdt self other

/-- Models `PandasDataFrame.__truediv__`. -/
def PandasDataFrame.truedivOp (cell : Val → Val → Val) (rdt : DType → DType → DType)
    (self : PandasDataFrame) (other : Comparand) : Except PdError PandasDataFrame :=
  binOpImpl cell rdt self other

/-- Models `PandasDataFrame.__floordiv__`. -/
def PandasDataFrame.floordivOp (cell : Val → Val → Val) (rdt : DType → DType → DType)
    (self : PandasDataFrame) (other : Comparand) : Except PdError PandasDataFrame :=
  binOpImpl cell rdt self other

/-- Models `PandasDataFrame.__pow__`. -/
def PandasDataFrame.powOp (cell : Val → Val → Val) (rdt : DType → DType → DType)
    (self : PandasDataFrame) (other : Comparand) : Except PdError PandasDataFrame :=
  binOpImpl cell rdt self other

/-- Models `PandasDataFrame.__mod__`. -/
def PandasDataFrame.modOp (cell : Val → Val → Val) (rdt : DType → DType → DType)
    (self : PandasDataFrame) (other : Comparand) : Except PdError PandasDataFrame :=
  binOpImpl cell rdt self other

/-- Models `PandasDataFrame.__divmod__`: the same pre-check, then
`self.dataframe.__divmod__(other.dataframe)` — for a dataframe operand the
engine produces a quotient frame and a remainder frame (two kernels); for a
non-dataframe operand the `other.dataframe` access raises `AttributeError`
first, as in `binOpImpl`. -/
def PandasDataFrame.divmodOp (cellQ cellR : Val → Val → Val)
    (rdtQ rdtR : DType → DType → DType) (self : PandasDataFrame)
    (other : Comparand) : Except PdError (PandasDataFrame × PandasDataFrame) := do
  validateComparand self other
  match other with
  | .df o => do
      let q ← mkDF (enginePointwise cellQ rdtQ self o) self.nrows
      let r ← mkDF (enginePointwise cellR rdtR self o) self.nrows
      pure (q, r)
  | .scalar _ => .error (.attributeError "object has no attribute dataframe")

/-- One column of `PandasDataFrame.isnull`: the extension branch keeps the
engine mask (`self.dataframe[column].isnull()`), the plain branch builds the
all-`False` series `pd.Series(np.array([False] * nrows), name=column)`. -/
def dfIsnullCol (nrows : Nat) (c : PdCol) : PdCol :=
  if c.dtype.isExtension then
    ⟨c.name, .boolean, c.data.map (fun v => Val.bool (decide (v = Val.na)))⟩
  else ⟨c.name, .boolean, List.replicate nrows (Val.bool false)⟩

/-- Models `PandasDataFrame.isnull`: per-column dispatch on
`is_extension_array_dtype`, reassembled by `pd.concat(result, axis=1)` in the
original column order. -/
def PandasDataFrame.isnull (d : PandasDataFrame) : PandasDataFrame :=
  ⟨d.cols.map (dfIsnullCol d.nrows), d.nrows⟩

/-- One column of `PandasDataFrame.isnan`.  Extension branch:
`np.isnan(series).replace(pd.NA, False).astype(bool)` — `np.isnan` maps a
masked entry (`pd.NA`) to `pd.NA`, a float `NaN` to `True` and any other cell
to `False`, and the `replace` then sends `pd.NA` to `False`.  Plain branch:
`series.isna()`. -/
def dfIsnanCol (c : PdCol) : PdCol :=
  if c.dtype.isExtension then
    ⟨c.name, .boolean, c.data.map (fun v =>
      match v with
      | .nan => Val.bool true
      | _ => Val.bool false)⟩
  else
    ⟨c.name, .boolean,
      c.data.map (fun v => Val.bool (decide (v = Val.nan) || decide (v = Val.na)))⟩

/-- Models `PandasDataFrame.isnan`: per-column dispatch on
`is_extension_array_dtype`, reassembled by `pd.concat(result, axis=1)` in the
original column order. -/
def PandasDataFrame.isnan (d : PandasDataFrame) : PandasDataFrame :=
  ⟨d.cols.map dfIsnanCol, d.nrows⟩

/-- Modelled from the spec ("column-wise application of the Column-level
semantics, reassembled preserving original column order and labels"): the
dataframe whose columns are `PandasColumn.isnan` of each of the original
columns. -/
def isnanColumnwise (d : PandasDataFrame) : PandasDataFrame :=
  ⟨d.cols.map (fun c =>
      let r := PandasColumn.isnan ⟨⟨c.name, c.dtype, defaultIdx d.nrows, c.data⟩⟩
      ⟨r.series.name, r.series.dtype, r.series.data⟩),
    d.nrows⟩

/-- Models `PandasDataFrame.get_column_by_name`: `self.dataframe.loc[:, name]`
wrapped as a column; the series carries the frame's (canonical) index and the
column's name; a missing label raises `KeyError`. -/
def PandasDataFrame.getColumnByName (d : PandasDataFrame) (name : String) :
    Except PdError PandasColumn :=
  match d.cols.find? (fun c => c.name = name) with
  | some c => .ok ⟨⟨name, c.dtype, defaultIdx d.nrows, c.data⟩⟩
  | none => .error (.keyError name)

/-- Models `PandasDataFrame.drop_column`: `self.dataframe.drop(label, axis=1)`
removes the labelled column (`KeyError` when absent — the `errors="raise"`
default), and the result is re-wrapped through the constructor. -/
def PandasDataFrame.dropColumn (d : PandasDataFrame) (label : String) :
    Except PdError PandasDataFrame :=
  if d.cols.any (fun c => c.name = label) then
    mkDF (d.cols.filter (fun c => c.name ≠ label)) d.nrows
  else .error (.keyError label)

/-- Models `PandasDataFrame.insert`: `_validate_index` checks the inserted
series' index against the frame's index (`pd.testing.assert_index_equal`
raises `AssertionError` on mismatch), then the column — renamed to `label` —
is spliced between `iloc[:, :loc]` and `iloc[:, loc:]` and the result is
re-wrapped through the constructor. -/
def PandasDataFrame.insert (d : PandasDataFrame) (loc : Nat) (label : String)
    (value : PandasColumn) : Except PdError PandasDataFrame :=
  if value.series.index = d.indexList then
    mkDF (d.cols.take loc ++ ⟨label, value.series.dtype, value.series.data⟩ :: d.cols.drop loc)
      d.nrows
  else .error (.assertionError "Index are different")

/-- Models the source line `if _other.dataframe.dtypes != self.dataframe.dtypes:`
inside `PandasDataFrame.concat`.  `dtypes` is a `pd.Series` indexed by the
column labels; `Series.__ne__` between two such series raises `ValueError`
when the labels differ, and otherwise returns an elementwise boolean series —
on which the `if` then calls `Series.__bool__`, which unconditionally raises
`ValueError` ("truth value ... is ambiguous"), whatever the series' length or
contents.  The `raise ValueError("Expected matching columns")` body of the
`if` is therefore unreachable. -/
def concatDtypeCheck (self o : PandasDataFrame) : Except PdError Unit :=
  if o.colNames ≠ self.colNames then
    .error (.valueError "Can only compare identically-labeled Series objects")
  else
    .error (.valueError
      "The truth value of a Series is ambiguous. Use a.empty, a.bool(), a.item(), a.any() or a.all().")

/-- The engine's row-wise concatenation
`pd.concat([self, *others], axis=0, ignore_index=True)`, restricted to the
case the adapter can reach (operands whose labels match `self`'s; a frame in
`others` missing one of `self`'s labels would contribute `NaN` fill, modelled
here, and extra labels would be unioned in, a case the preceding check makes
unreachable). -/
def rowConcat (self : PandasDataFrame) (others : List PandasDataFrame) :
    PandasDataFrame :=
  ⟨self.cols.map (fun c =>
      ⟨c.name, c.dtype,
        c.data ++ others.flatMap (fun o =>
          match o.cols.find? (fun x => x.name = c.name) with
          | some x => x.data
          | none => List.replicate o.nrows Val.nan)⟩),
    self.nrows + (others.map PandasDataFrame.nrows).sum⟩

/-- Models `PandasDataFrame.concat`: the per-operand dtype check (whose
condition itself raises, see `concatDtypeCheck`) followed by the engine
concatenation re-wrapped through the constructor. -/
def PandasDataFrame.concat (self : PandasDataFrame)
    (others : List PandasDataFrame) : Except PdError PandasDataFrame := do
  others.forM (fun o => concatDtypeCheck self o)
  let r := rowConcat self others
  mkDF r.cols r.nrows

/-- A cell of the frame by column label and row position (total with a
default; well-formed uses stay in range). -/
def PandasDataFrame.cell (d : PandasDataFrame) (name : String) (i : Nat) : Val :=
  match d.cols.find? (fun c => c.name = name) with
  | some c => c.data.getD i Val.na
  | none => Val.na

/-- The tuple of group-key values of row `i`. -/
def keyVals (d : PandasDataFrame) (keys : List String) (i : Nat) : List Val :=
  keys.map (fun k => d.cell k i)

/-- A missing key marker: `groupby(..., dropna=True)` (the pandas default)
excludes a row whose key tuple contains `NaN` or `pd.NA`. -/
def isNullVal (v : Val) : Bool :=
  decide (v = Val.nan) || decide (v = Val.na)

/-- The rows the engine's group partition keeps: rows whose key tuple has no
missing entry (`dropna=True`). -/
def keptRows (d : PandasDataFrame) (keys : List String) : List Nat :=
  (List.range d.nrows).filter (fun i => !(keyVals d keys i).any isNullVal)

/-- The distinct key tuples among the kept rows — one per group.  `dedup`
yields them up to order; pandas emits them in first-occurrence order
(`sort=False`) or sorted (`sort=True`, the default inside `size`), both
permutations of this list, and every property proved below is
order-invariant. -/
def groupKeys (d : PandasDataFrame) (keys : List String) : List (List Val) :=
  ((keptRows d keys).map (keyVals d keys)).dedup

/-- The per-group row counts, paired with `groupKeys` positionally. -/
def groupCounts (d : PandasDataFrame) (keys : List String) : List Nat :=
  (groupKeys d keys).map
    (fun t => ((keptRows d keys).map (keyVals d keys)).count t)

/-- Models `PandasGroupBy`: the raw engine frame and the validated keys
(`self.grouped`, the lazily created engine handle, is determined by the two
and not stored). -/
structure PandasGroupBy where
  df : PandasDataFrame
  keys : List String

/-- Models `PandasGroupBy.size`:
`self.df.groupby(self.keys, as_index=True).size()` — a series indexed by the
group keys whose values are the group row counts. -/
def PandasGroupBy.size (g : PandasGroupBy) : PdSeries :=
  ⟨"", .int64, (groupKeys g.df g.keys).map Idx.keys,
    (groupCounts g.df g.keys).map (fun n => Val.int n)⟩

/-- Models `PandasDataFrame.groupby`: the sequence/str `isinstance` guards
are Python dynamic-typing checks subsumed by the `List String` type; each key
must be an existing column label (`KeyError` otherwise).  Constructing the
engine handle `df.groupby(list(keys), ...)` itself raises `ValueError` when
`keys` is empty ("No group keys passed!"). -/
def PandasDataFrame.groupby (d : PandasDataFrame) (keys : List String) :
    Except PdError PandasGroupBy :=
  match keys.find? (fun k => !(d.colNames.contains k)) with
  | some k => .error (.keyError k)
  | none =>
      if keys.isEmpty then .error (.valueError "No group keys passed!")
      else .ok ⟨d, keys⟩

/-- An engine aggregation capability (the kernel behind `grouped.mean()` and
friends, out of scope per the specification): which dtypes it can reduce, and
the reduction itself.  A column whose dtype it does not support is silently
dropped from the engine result — the behaviour `_validate_result` guards
against. -/
structure EngineAgg where
  supports : DType → Bool
  reduce : DType → List Val → Val

/-- The cells of column `c` belonging to the group with key tuple `t`. -/
def groupCells (d : PandasDataFrame) (keys : List String) (c : PdCol)
    (t : List Val) : List Val :=
  ((keptRows d keys).filter (fun i => keyVals d keys i = t)).map
    (fun i => c.data.getD i Val.na)

/-- The raw engine result of `self.grouped.<agg>()` (with `as_index=False`):
the key columns followed by every non-key column whose dtype the kernel
supports, reduced per group; unsupported columns are dropped. -/
def aggFrame (g : PandasGroupBy) (e : EngineAgg) : PandasDataFrame :=
  let gks := groupKeys g.df g.keys
  ⟨(g.keys.enum.map (fun kj =>
      ⟨kj.2, match g.df.cols.find? (fun c => c.name = kj.2) with
             | some c => c.dtype
             | none => .float64,
        gks.map (fun t => t.getD kj.1 Val.na)⟩))
    ++ ((g.df.cols.filter
          (fun c => !(g.keys.contains c.name) && e.supports c.dtype)).map
        (fun c => ⟨c.name, c.dtype,
          gks.map (fun t => e.reduce c.dtype (groupCells g.df g.keys c t))⟩)),
    gks.length⟩

/-- The labels `_validate_result` finds missing:
`self.df.columns.difference(result.columns)` (pandas sorts the difference;
the model keeps original order, which does not affect emptiness or
membership). -/
def failedColumns (g : PandasGroupBy) (result : PandasDataFrame) : List String :=
  g.df.colNames.filter (fun n => !(result.colNames.contains n))

/-- The `RuntimeError` message of `_validate_result`, interpolating the
dropped labels. -/
def dropMsg (failed : List String) : String :=
  "Groupby operation could not be performed on columns " ++
    String.intercalate ", " failed ++ ". Please drop them before calling groupby."

/-- Models `PandasGroupBy._validate_result`. -/
def PandasGroupBy.validateResult (g : PandasGroupBy)
    (result : PandasDataFrame) : Except PdError Unit :=
  if failedColumns g result ≠ [] then
    .error (.runtimeError (dropMsg (failedColumns g result)))
  else .ok ()

/-- The shared body of the eight unguarded aggregations (`min`, `max`, `sum`,
`prod`, `median`, `mean`, `std`, `var`): engine reduction, then
`_validate_result`, then re-wrapping through the constructor.  Each method
passes its own engine kernel. -/
def aggCall (e : EngineAgg) (g : PandasGroupBy) : Except PdError PandasDataFrame := do
  let r := aggFrame g e
  g.validateResult r
  mkDF r.cols r.nrows

/-- The booleanness guard shared by `PandasGroupBy.any` / `PandasGroupBy.all`:
`(self.df.drop(columns=self.keys).dtypes == "bool").all()` — every non-key
column must have the plain numpy `bool` dtype. -/
def boolGuard (g : PandasGroupBy) : Bool :=
  (g.df.cols.filter (fun c => !(g.keys.contains c.name))).all
    (fun c => c.dtype = DType.boolean)

/-- Models `PandasGroupBy.any`: the booleanness guard, then the shared
aggregation body. -/
def PandasGroupBy.anyAgg (e : EngineAgg) (g : PandasGroupBy) :
    Except PdError PandasDataFrame :=
  if boolGuard g then aggCall e g else .error (.valueError "Expected boolean types")

/-- Models `PandasGroupBy.all`: the booleanness guard, then the shared
aggregation body. -/
def PandasGroupBy.allAgg (e : EngineAgg) (g : PandasGroupBy) :
    Except PdError PandasDataFrame :=
  if boolGuard g then aggCall e g else .error (.valueError "Expected boolean types")

/-- Models `PandasGroupBy.min`. -/
def PandasGroupBy.minAgg (e : EngineAgg) (g : PandasGroupBy) :
    Except PdError PandasDataFrame :=
  aggCall e g

/-- Models `PandasGroupBy.max`. -/
def PandasGroupBy.maxAgg (e : EngineAgg) (g : PandasGroupBy) :
    Except PdError PandasDataFrame :=
  aggCall e g

/-- Models `PandasGroupBy.sum`. -/
def PandasGroupBy.sumAgg (e : EngineAgg) (g : PandasGroupBy) :
    Except PdError PandasDataFrame :=
  aggCall e g

/-- Models `PandasGroupBy.prod`. -/
def PandasGroupBy.prodAgg (e : EngineAgg) (g : PandasGroupBy) :
    Except PdError PandasDataFrame :=
  aggCall e g

/-- Models `PandasGroupBy.median`. -/
def PandasGroupBy.medianAgg (e : EngineAgg) (g : PandasGroupBy) :
    Except PdError PandasDataFrame :=
  aggCall e g

/-- Models `PandasGroupBy.mean`. -/
def PandasGroupBy.meanAgg (e : EngineAgg) (g : PandasGroupBy) :
    Except PdError PandasDataFrame :=
  aggCall e g

/-- Models `PandasGroupBy.std`. -/
def PandasGroupBy.stdAgg (e : EngineAgg) (g : PandasGroupBy) :
    Except PdError PandasDataFrame :=
  aggCall e g

/-- Models `PandasGroupBy.var`. -/
def PandasGroupBy.varAgg (e : EngineAgg) (g : PandasGroupBy) :
    Except PdError PandasDataFrame :=
  aggCall e g

/-- An order-encoding of cell values for sorting, as `sort_values` orders
them with the default `na_position="last"`: values compare within their kind,
and missing markers (`NaN`, `pd.NA`) come after every proper value.  The
first component is the kind tag, the second the payload. -/
def Val.enc : Val → Int × Int
  | .bool b => (0, if b then 1 else 0)
  | .int n => (1, n)
  | .nan => (2, 0)
  | .na => (3, 0)

/-- Strict lexicographic order on encoded cells. -/
def pairLtE (a b : Int × Int) : Bool :=
  decide (a.1 < b.1) || (decide (a.1 = b.1) && decide (a.2 < b.2))

/-- Strict lexicographic order on lists of encoded cells (shorter prefixes
first). -/
def lexLt : List (Int × Int) → List (Int × Int) → Bool
  | [], [] => false
  | [], _ :: _ => true
  | _ :: _, [] => false
  | a :: as, b :: bs => pairLtE a b || (decide (a = b) && lexLt as bs)

/-- Strict ascending order on key tuples. -/
def tupleLt (x y : List Val) : Bool :=
  lexLt (x.map Val.enc) (y.map Val.enc)

/-- Non-strict ascending order on key tuples. -/
def tupleLe (x y : List Val) : Bool :=
  !(tupleLt y x)

/-- The total order a stable ascending sort realises on position-tagged rows:
ascending by key tuple, ties broken by the original position.  On rows with
pairwise-distinct position tags, sorting by this order is exactly pandas'
stable multi-key `lexsort_indexer`. -/
def rowLe (p q : List Val × Nat) : Bool :=
  tupleLt p.1 q.1 || (decide (p.1 = q.1) && decide (p.2 ≤ q.2))

/-- Insert into a sorted list, before the first element not smaller. -/
def insertLe (le : α → α → Bool) (x : α) : List α → List α
  | [] => [x]
  | y :: ys => if le x y then x :: y :: ys else y :: insertLe le x ys

/-- Insertion sort by a boolean order. -/
def sortByLe (le : α → α → Bool) : List α → List α
  | [] => []
  | x :: xs => insertLe le x (sortByLe le xs)

/-- The rows of the key-column subset `self.dataframe.loc[:, list(keys)]`,
tagged with their positions. -/
def taggedRows (d : PandasDataFrame) (keys : List String) :
    List (List Val × Nat) :=
  (List.range d.nrows).map (fun i => (keyVals d keys i, i))

/-- Models `PandasDataFrame.sorted_indices`: select the key columns
(`KeyError` when a key is absent), sort their rows with
`df.sort_values(keys)` and return `index.to_series()` — a series whose index
and values are both the sorted original positions.  `sort_values` dispatches
on the number of keys: with more than one key it runs the stable
`np.lexsort` (modelled by the stable insertion sort under `rowLe`, whose
position tie-break coincides with stability on distinct tags); with a single
key it runs `nargsort` under the default `kind="quicksort"`, an engine sort
with no stability guarantee, which therefore enters as the capability
parameter `eng`. -/
def sortedIndices (eng : List (List Val × Nat) → List (List Val × Nat))
    (d : PandasDataFrame) (keys : List String) : Except PdError PdSeries :=
  match keys.find? (fun k => !(d.colNames.contains k)) with
  | some k => .error (.keyError k)
  | none =>
      let sorted := if 1 < keys.length then sortByLe rowLe (taggedRows d keys)
                    else eng (taggedRows d keys)
      .ok ⟨"", .int64, sorted.map (fun p => Idx.pos p.2),
        sorted.map (fun p => Val.int (p.2 : Int))⟩

/-- C7 counterexample: the claim demands `IndexError` for every negative
`row`, but pandas `iloc` resolves a negative position from the end: on the
three-element column `[1, 2, 3]`, `get(-1)` returns `3` instead of failing. -/
theorem c7_counterexample_negative_get_succeeds :
    PandasColumn.getitem
      ⟨⟨"a", DType.int64, defaultIdx 3, [Val.int 1, Val.int 2, Val.int 3]⟩⟩ (-1)
      = .ok (Val.int 3) ∧ (-1 : Int) < 0 := by
  refine ⟨?_, by decide⟩
  rfl

/-- C7 (amended): `get(row)` returns the cell at position `row` when
`0 ≤ row < N`, the cell at position `N + row` when `-N ≤ row < 0` (pandas
negative positional indexing), and fails with `IndexError` exactly when
`row < -N` or `row ≥ N`. -/
theorem c7_getitem_amended (c : PandasColumn) (row : Int) :
    (0 ≤ row ∧ row < (c.series.data.length : Int) →
      c.getitem row = .ok (c.series.data.getD row.toNat Val.na)) ∧
    (-(c.series.data.length : Int) ≤ row ∧ row < 0 →
      c.getitem row = .ok (c.series.data.getD ((c.series.data.length : Int) + row).toNat Val.na)) ∧
    (row < -(c.series.data.length : Int) ∨ (c.series.data.length : Int) ≤ row →
      c.getitem row = .error (.indexError "single positional indexer is out-of-bounds")) := by
  refine ⟨?_, ?_, ?_⟩
  · rintro ⟨h0, h1⟩
    simp only [PandasColumn.getitem]
    rw [if_neg (show ¬row < 0 by omega), if_pos ⟨h0, h1⟩]
  · rintro ⟨h0, h1⟩
    simp only [PandasColumn.getitem]
    rw [if_pos (show row < 0 from h1), if_pos ⟨by omega, by omega⟩]
  · intro h
    simp only [PandasColumn.getitem]
    rcases h with h | h
    · rw [if_pos (show row < 0 by omega), if_neg (by omega)]
    · rw [if_neg (show ¬row < 0 by omega), if_neg (by omega)]

/-- C7 witness: the amended theorem applied to the column `[7, 8]` at
`row = 1`, `row = -2` and `row = 5`. -/
theorem c7_getitem_amended_witness :
    PandasColumn.getitem ⟨⟨"a", DType.int64, defaultIdx 2, [Val.int 7, Val.int 8]⟩⟩ 1
        = .ok (Val.int 8) ∧
    PandasColumn.getitem ⟨⟨"a", DType.int64, defaultIdx 2, [Val.int 7, Val.int 8]⟩⟩ (-2)
        = .ok (Val.int 7) ∧
    PandasColumn.getitem ⟨⟨"a", DType.int64, defaultIdx 2, [Val.int 7, Val.int 8]⟩⟩ 5
        = .error (.indexError "single positional indexer is out-of-bounds") :=
  ⟨(c7_getitem_amended _ 1).1 ⟨by decide, by decide⟩,
   (c7_getitem_amended _ (-2)).2.1 ⟨by decide, by decide⟩,
   (c7_getitem_amended _ 5).2.2 (Or.inr (by decide))⟩

/-- C5 counterexample: the claim demands `C.isnull().all() == false` always
for non-nullable dtypes, but on the empty `int64` column `isnull()` is the
empty boolean column and `Series.all()` reduces an empty series vacuously to
`True`. -/
theorem c5_counterexample_empty_column_all_true :
    PandasColumn.all (PandasColumn.isnull ⟨⟨"a", DType.int64, [], []⟩⟩) = true ∧
    ¬ DType.isExtension DType.int64 = true := by
  exact ⟨rfl, by decide⟩

/-- C5 (amended): for a non-nullable dtype, `isnull()` is the all-false
boolean column of the same length, and `isnull().all() == false` for every
*non-empty* such column (on an empty column the reduction is vacuously
`true`); for a nullable (extension) dtype, `isnull().any() == true` iff the
column contains at least one null (`pd.NA`). -/
theorem c5_isnull_amended (c : PandasColumn) :
    (¬ c.series.dtype.isExtension = true →
      c.isnull.series.dtype = DType.boolean ∧
      c.isnull.series.data
        = List.replicate c.series.data.length (Val.bool false) ∧
      (c.series.data ≠ [] → c.isnull.all = false)) ∧
    (c.series.dtype.isExtension = true →
      (c.isnull.any = true ↔ Val.na ∈ c.series.data)) := by
  constructor
  · intro hext
    unfold PandasColumn.isnull
    rw [if_neg hext]
    refine ⟨rfl, rfl, ?_⟩
    intro hne
    unfold PandasColumn.all
    cases hd : c.series.data with
    | nil => exact absurd hd hne
    | cons x xs =>
        simp [hd, List.replicate_succ, truthy]
  · intro hext
    unfold PandasColumn.isnull
    rw [if_pos hext]
    unfold PandasColumn.any
    simp only [List.any_map]
    rw [List.any_eq_true]
    constructor
    · rintro ⟨v, hv, htv⟩
      simp only [Function.comp, truthy] at htv
      have : v = Val.na := by
        revert htv; simp
      exact this ▸ hv
    · intro hmem
      exact ⟨Val.na, hmem, by simp [Function.comp, truthy]⟩

/-- C5 witness: the amended theorem applied to the non-empty plain column
`[1]` (all-false `isnull`, `all() = false`) and to the nullable column
`[NA]` (`any() = true`, which the equivalence turns into membership of the
null). -/
theorem c5_isnull_amended_witness :
    PandasColumn.all
        (PandasColumn.isnull ⟨⟨"a", DType.int64, defaultIdx 1, [Val.int 1]⟩⟩) = false ∧
    PandasColumn.any
        (PandasColumn.isnull ⟨⟨"b", DType.nullableInt64, defaultIdx 1, [Val.na]⟩⟩) = true :=
  ⟨((c5_isnull_amended ⟨⟨"a", DType.int64, defaultIdx 1, [Val.int 1]⟩⟩).1
      (by decide)).2.2 (by decide),
   ((c5_isnull_amended ⟨⟨"b", DType.nullableInt64, defaultIdx 1, [Val.na]⟩⟩).2
      (by decide)).mpr (by decide)⟩

/-- C3: evaluation of the code at the failing input.  On the single-column
frame `D = ⟨a: [1, 2], int64⟩` the call `D.concat([D])` — identical dtypes in
identical order — does not succeed: the guard
`if _other.dataframe.dtypes != self.dataframe.dtypes:` evaluates an
elementwise boolean series in boolean context and `Series.__bool__` raises
`ValueError` unconditionally.  More generally, `concat` raises `ValueError`
for every non-empty operand list, so no row-wise concatenation is ever
produced; the specification's contract (succeed on identical dtypes, twice
the rows here) is the evident intent and the unparenthesised series
truthiness test a slip. -/
theorem c3_concat_always_raises :
    PandasDataFrame.concat ⟨[⟨"a", DType.int64, [Val.int 1, Val.int 2]⟩], 2⟩
        [⟨[⟨"a", DType.int64, [Val.int 1, Val.int 2]⟩], 2⟩]
      = .error (.valueError
          "The truth value of a Series is ambiguous. Use a.empty, a.bool(), a.item(), a.any() or a.all().") ∧
    ∀ (d o : PandasDataFrame) (rest : List PandasDataFrame),
      ∃ msg, d.concat (o :: rest) = .error (.valueError msg) := by
  constructor
  · rfl
  · intro d o rest
    unfold PandasDataFrame.concat concatDtypeCheck
    by_cases h : o.colNames = d.colNames
    · refine ⟨"The truth value of a Series is ambiguous. Use a.empty, a.bool(), a.item(), a.any() or a.all().", ?_⟩
      rw [List.forM_cons']
      rw [if_neg (not_not.mpr h)]
      rfl
    · refine ⟨"Can only compare identically-labeled Series objects", ?_⟩
      rw [List.forM_cons']
      rw [if_pos h]
      rfl

/-- C2 counterexample: on the one-column nullable frame `⟨a: [NA], Int64⟩`
the dataframe-level `isnan` maps the null to `false`
(`np.isnan(...).replace(pd.NA, False)`), while the column-wise application of
the Column-level `isnan` (`Series.isna()`, the missing-value mask) maps it to
`true`, so `D.isnan()` is not the column-wise reassembly of the Column-level
semantics and the null does not map to `false` at both levels. -/
theorem c2_counterexample_null_isnan_mismatch :
    PandasDataFrame.isnan ⟨[⟨"a", DType.nullableInt64, [Val.na]⟩], 1⟩
        ≠ isnanColumnwise ⟨[⟨"a", DType.nullableInt64, [Val.na]⟩], 1⟩ ∧
    (PandasDataFrame.isnan ⟨[⟨"a", DType.nullableInt64, [Val.na]⟩], 1⟩).cols
        = [⟨"a", DType.boolean, [Val.bool false]⟩] ∧
    (isnanColumnwise ⟨[⟨"a", DType.nullableInt64, [Val.na]⟩], 1⟩).cols
        = [⟨"a", DType.boolean, [Val.bool true]⟩] := by
  refine ⟨by decide, rfl, rfl⟩

/-- C2 (amended): `D.isnan()` preserves the original column order and labels
and applies a per-column rule that coincides with the Column-level `isnan`
exactly on non-extension columns; on a nullable (extension) column the
dataframe level marks precisely the float `NaN` cells true — so a null that
is not a float NaN maps to `false` there — while the Column-level `isnan`
(plain `isna()`) marks precisely the nulls true. -/
theorem c2_isnan_amended (d : PandasDataFrame) :
    ((d.isnan).cols.map PdCol.name = d.cols.map PdCol.name ∧
      (d.isnan).nrows = d.nrows) ∧
    ((∀ c ∈ d.cols, c.dtype.isExtension = false) → d.isnan = isnanColumnwise d) ∧
    (∀ c ∈ d.cols, c.dtype.isExtension = true →
      (dfIsnanCol c).data = c.data.map (fun v => Val.bool (decide (v = Val.nan)))) ∧
    (∀ col : PandasColumn, col.series.dtype.isExtension = true →
      (col.isnan).series.data
        = col.series.data.map (fun v => Val.bool (decide (v = Val.na)))) := by
  refine ⟨⟨?_, rfl⟩, ?_, ?_, ?_⟩
  · show (d.cols.map dfIsnanCol).map PdCol.name = d.cols.map PdCol.name
    rw [List.map_map]
    apply List.map_congr_left
    intro c _
    unfold Function.comp dfIsnanCol
    split <;> rfl
  · intro hall
    show (⟨d.cols.map dfIsnanCol, d.nrows⟩ : PandasDataFrame) = _
    unfold isnanColumnwise
    congr 1
    apply List.map_congr_left
    intro c hc
    have hext : c.dtype.isExtension = false := hall c hc
    unfold dfIsnanCol PandasColumn.isnan
    rw [if_neg (by simp [hext])]
    simp [isnaCell, hext]
  · intro c _ hext
    unfold dfIsnanCol
    rw [if_pos hext]
    apply List.map_congr_left
    intro v _
    cases v <;> rfl
  · intro col hext
    unfold PandasColumn.isnan
    apply List.map_congr_left
    intro v _
    unfold isnaCell
    rw [if_pos hext]

/-- C2 witness: the amended theorem applied to the all-plain frame
`⟨x: [NaN], float64⟩` (dataframe level equals the column-wise reassembly) and
to the nullable column `⟨y: [NA, NaN], Float64⟩` (dataframe level
`[false, true]`, Column level `[true, false]`). -/
theorem c2_isnan_amended_witness :
    PandasDataFrame.isnan ⟨[⟨"x", DType.float64, [Val.nan]⟩], 1⟩
        = isnanColumnwise ⟨[⟨"x", DType.float64, [Val.nan]⟩], 1⟩ ∧
    (dfIsnanCol ⟨"y", DType.nullableFloat64, [Val.na, Val.nan]⟩).data
        = [Val.bool false, Val.bool true] ∧
    (PandasColumn.isnan
        ⟨⟨"y", DType.nullableFloat64, defaultIdx 2, [Val.na, Val.nan]⟩⟩).series.data
        = [Val.bool true, Val.bool false] :=
  ⟨(c2_isnan_amended ⟨[⟨"x", DType.float64, [Val.nan]⟩], 1⟩).2.1
      (by decide),
   by
    rw [(c2_isnan_amended ⟨[⟨"y", DType.nullableFloat64, [Val.na, Val.nan]⟩], 2⟩).2.2.1
      ⟨"y", DType.nullableFloat64, [Val.na, Val.nan]⟩ (by decide) (by decide)]
    rfl,
   by
    rw [(c2_isnan_amended ⟨[⟨"y", DType.nullableFloat64, [Val.na, Val.nan]⟩], 2⟩).2.2.2
      ⟨⟨"y", DType.nullableFloat64, defaultIdx 2, [Val.na, Val.nan]⟩⟩ (by decide)]
    rfl⟩

/-- C1: every binary comparison/arithmetic dunder of the wrapped dataframe
raises `ValueError` whenever the dataframe operands fail the alignment
contract — identical index, identical shape, identical column labels in the
same order (with the always-canonical index, the index condition is
subsumed by equal length).  Quantified over the engine cell kernels, which
the pre-check never reaches. -/
theorem c1_misaligned_binops_raise_valueerror
    (cell : Val → Val → Val) (rdt : DType → DType → DType)
    (cellQ cellR : Val → Val → Val) (rdtQ rdtR : DType → DType → DType)
    (d1 d2 : PandasDataFrame)
    (h : ¬(d1.indexList = d2.indexList ∧ d1.shape = d2.shape ∧
        d1.colNames = d2.colNames)) :
    PandasDataFrame.eqOp cell rdt d1 (.df d2)
        = .error (.valueError "Expected DataFrame with same length, matching columns, and matching index.") ∧
    PandasDataFrame.neOp cell rdt d1 (.df d2)
        = .error (.valueError "Expected DataFrame with same length, matching columns, and matching index.") ∧
    PandasDataFrame.geOp cell rdt d1 (.df d2)
        = .error (.valueError "Expected DataFrame with same length, matching columns, and matching index.") ∧
    PandasDataFrame.gtOp cell rdt d1 (.df d2)
        = .error (.valueError "Expected DataFrame with same length, matching columns, and matching index.") ∧
    PandasDataFrame.leOp cell rdt d1 (.df d2)
        = .error (.valueError "Expected DataFrame with same length, matching columns, and matching index.") ∧
    PandasDataFrame.ltOp cell rdt d1 (.df d2)
        = .error (.valueError "Expected DataFrame with same length, matching columns, and matching index.") ∧
    PandasDataFrame.addOp cell rdt d1 (.df d2)
        = .error (.valueError "Expected DataFrame with same length, matching columns, and matching index.") ∧
    PandasDataFrame.subOp cell rdt d1 (.df d2)
        = .error (.valueError "Expected DataFrame with same length, matching columns, and matching index.") ∧
    PandasDataFrame.mulOp cell rdt d1 (.df d2)
        = .error (.valueError "Expected DataFrame with same length, matching columns, and matching index.") ∧
    PandasDataFrame.truedivOp cell rdt d1 (.df d2)
        = .error (.valueError "Expected DataFrame with same length, matching columns, and matching index.") ∧
    PandasDataFrame.floordivOp cell rdt d1 (.df d2)
        = .error (.valueError "Expected DataFrame with same length, matching columns, and matching index.") ∧
    PandasDataFrame.powOp cell rdt d1 (.df d2)
        = .error (.valueError "Expected DataFrame with same length, matching columns, and matching index.") ∧
    PandasDataFrame.modOp cell rdt d1 (.df d2)
        = .error (.valueError "Expected DataFrame with same length, matching columns, and matching index.") ∧
    PandasDataFrame.divmodOp cellQ cellR rdtQ rdtR d1 (.df d2)
        = .error (.valueError "Expected DataFrame with same length, matching columns, and matching index.") := by
  have hv : validateComparand d1 (.df d2)
      = .error (.valueError "Expected DataFrame with same length, matching columns, and matching index.") := by
    simp only [validateComparand]
    rw [if_neg h]
  have key : ∀ (c : Val → Val → Val) (r : DType → DType → DType),
      binOpImpl c r d1 (.df d2)
        = .error (.valueError "Expected DataFrame with same length, matching columns, and matching index.") := by
    intro c r
    unfold binOpImpl
    rw [hv]
    rfl
  have keyDm : PandasDataFrame.divmodOp cellQ cellR rdtQ rdtR d1 (.df d2)
      = .error (.valueError "Expected DataFrame with same length, matching columns, and matching index.") := by
    unfold PandasDataFrame.divmodOp
    rw [hv]
    rfl
  exact ⟨key cell rdt, key cell rdt, key cell rdt, key cell rdt, key cell rdt,
    key cell rdt, key cell rdt, key cell rdt, key cell rdt, key cell rdt,
    key cell rdt, key cell rdt, key cell rdt, keyDm⟩

/-- C1 witness: the theorem applied to two single-row frames whose labelled
cells are pointwise equal (`a = 1`, `b = 2` in both) but whose column order
differs, with a concrete equality kernel: `D1 == D2` raises `ValueError`. -/
theorem c1_misaligned_binops_witness :
    PandasDataFrame.eqOp (fun x y => Val.bool (decide (x = y)))
        (fun _ _ => DType.boolean)
        ⟨[⟨"a", DType.int64, [Val.int 1]⟩, ⟨"b", DType.int64, [Val.int 2]⟩], 1⟩
        (.df ⟨[⟨"b", DType.int64, [Val.int 2]⟩, ⟨"a", DType.int64, [Val.int 1]⟩], 1⟩)
      = .error (.valueError "Expected DataFrame with same length, matching columns, and matching index.") :=
  (c1_misaligned_binops_raise_valueerror (fun x y => Val.bool (decide (x = y)))
    (fun _ _ => DType.boolean) (fun x _ => x) (fun x _ => x)
    (fun a _ => a) (fun a _ => a)
    ⟨[⟨"a", DType.int64, [Val.int 1]⟩, ⟨"b", DType.int64, [Val.int 2]⟩], 1⟩
    ⟨[⟨"b", DType.int64, [Val.int 2]⟩, ⟨"a", DType.int64, [Val.int 1]⟩], 1⟩
    (by decide)).1

/-- C10 counterexample: the claim says a non-dataframe operand is delegated
to the underlying engine unchecked, but on the frame `⟨a: [1]⟩` with the
scalar `3`, `D + 3` raises `AttributeError`: the pre-check indeed passes
(second conjunct) yet the dunder body's unconditional `other.dataframe`
attribute access fails before any engine call, so nothing is delegated. -/
theorem c10_counterexample_scalar_attribute_error :
    PandasDataFrame.addOp (fun x _ => x) (fun t _ => t)
        ⟨[⟨"a", DType.int64, [Val.int 1]⟩], 1⟩ (.scalar (Val.int 3))
      = .error (.attributeError "object has no attribute dataframe") ∧
    validateComparand ⟨[⟨"a", DType.int64, [Val.int 1]⟩], 1⟩
        (.scalar (Val.int 3)) = .ok () :=
  ⟨rfl, rfl⟩

/-- C10 (amended): a non-dataframe (scalar) right operand passes
`_validate_comparand` unchecked (`isinstance` fails, so no condition is
evaluated and no alignment `ValueError` can arise from the pre-check), but
every dunder body then unconditionally accesses `other.dataframe`, raising
`AttributeError` for any non-dataframe operand before the engine is
reached: such operands are rejected by attribute access, not delegated. -/
theorem c10_scalar_operand_unvalidated_attribute_error
    (cell : Val → Val → Val) (rdt : DType → DType → DType)
    (d : PandasDataFrame) (v : Val) :
    validateComparand d (.scalar v) = .ok () ∧
    PandasDataFrame.eqOp cell rdt d (.scalar v)
      = .error (.attributeError "object has no attribute dataframe") ∧
    PandasDataFrame.neOp cell rdt d (.scalar v)
      = .error (.attributeError "object has no attribute dataframe") ∧
    PandasDataFrame.geOp cell rdt d (.scalar v)
      = .error (.attributeError "object has no attribute dataframe") ∧
    PandasDataFrame.gtOp cell rdt d (.scalar v)
      = .error (.attributeError "object has no attribute dataframe") ∧
    PandasDataFrame.leOp cell rdt d (.scalar v)
      = .error (.attributeError "object has no attribute dataframe") ∧
    PandasDataFrame.ltOp cell rdt d (.scalar v)
      = .error (.attributeError "object has no attribute dataframe") ∧
    PandasDataFrame.addOp cell rdt d (.scalar v)
      = .error (.attributeError "object has no attribute dataframe") ∧
    PandasDataFrame.subOp cell rdt d (.scalar v)
      = .error (.attributeError "object has no attribute dataframe") ∧
    PandasDataFrame.mulOp cell rdt d (.scalar v)
      = .error (.attributeError "object has no attribute dataframe") ∧
    PandasDataFrame.truedivOp cell rdt d (.scalar v)
      = .error (.attributeError "object has no attribute dataframe") ∧
    PandasDataFrame.floordivOp cell rdt d (.scalar v)
      = .error (.attributeError "object has no attribute dataframe") ∧
    PandasDataFrame.powOp cell rdt d (.scalar v)
      = .error (.attributeError "object has no attribute dataframe") ∧
    PandasDataFrame.modOp cell rdt d (.scalar v)
      = .error (.attributeError "object has no attribute dataframe") ∧
    PandasDataFrame.divmodOp cell cell rdt rdt d (.scalar v)
      = .error (.attributeError "object has no attribute dataframe") := by
  refine ⟨rfl, rfl, rfl, rfl, rfl, rfl, rfl, rfl, rfl, rfl, rfl, rfl, rfl, rfl, rfl⟩

/-- C9: for a well-formed frame split as `pre ++ c :: post`, dropping the
column labelled `c.name` and re-inserting the extracted original column at
its original position `pre.length` reconstructs the frame exactly — same
labels in the same order, same dtypes and values, same (canonical) index. -/
theorem c9_drop_insert_roundtrip (d : PandasDataFrame) (pre post : List PdCol)
    (c : PdCol) (hWF : d.WF) (hsplit : d.cols = pre ++ c :: post) :
    (do
      let col ← d.getColumnByName c.name
      let d2 ← d.dropColumn c.name
      d2.insert pre.length c.name col) = .ok d := by
  obtain ⟨hnd0, -⟩ := hWF
  have hnd : ((pre ++ c :: post).map PdCol.name).Nodup := by
    rw [← hsplit]; exact hnd0
  rw [List.map_append, List.map_cons, List.nodup_append] at hnd
  obtain ⟨hnd1, hnd2, hdisj⟩ := hnd
  have hcpre : c.name ∉ pre.map PdCol.name :=
    fun hmem => hdisj hmem (List.mem_cons_self _ _)
  have hcpost : c.name ∉ post.map PdCol.name := (List.nodup_cons.mp hnd2).1
  have hfind : (pre ++ c :: post).find? (fun x => decide (x.name = c.name))
      = some c := by
    rw [List.find?_append]
    have hpre : pre.find? (fun x => decide (x.name = c.name)) = none := by
      rw [List.find?_eq_none]
      intro x hx
      simp only [decide_eq_true_eq]
      intro hEq
      exact hcpre (hEq ▸ List.mem_map_of_mem PdCol.name hx)
    rw [hpre, Option.none_or, List.find?_cons_of_pos _ (by simp)]
  have hget : d.getColumnByName c.name
      = .ok ⟨⟨c.name, c.dtype, defaultIdx d.nrows, c.data⟩⟩ := by
    unfold PandasDataFrame.getColumnByName
    rw [hsplit, hfind]
  have hanyc : (pre ++ c :: post).any (fun x => decide (x.name = c.name)) = true :=
    List.any_eq_true.mpr ⟨c, by simp, by simp⟩
  have hfilter : (pre ++ c :: post).filter (fun x => decide (x.name ≠ c.name))
      = pre ++ post := by
    rw [List.filter_append, List.filter_cons, if_neg (by simp)]
    have h1 : pre.filter (fun x => decide (x.name ≠ c.name)) = pre := by
      rw [List.filter_eq_self]
      intro x hx
      simp only [decide_eq_true_eq]
      intro hEq
      exact hcpre (hEq ▸ List.mem_map_of_mem PdCol.name hx)
    have h2 : post.filter (fun x => decide (x.name ≠ c.name)) = post := by
      rw [List.filter_eq_self]
      intro x hx
      simp only [decide_eq_true_eq]
      intro hEq
      exact hcpost (hEq ▸ List.mem_map_of_mem PdCol.name hx)
    rw [h1, h2]
  have hnodup2 : ((pre ++ post).map PdCol.name).Nodup := by
    rw [List.map_append, List.nodup_append]
    exact ⟨hnd1, (List.nodup_cons.mp hnd2).2,
      fun a ha hb => hdisj ha (List.mem_cons_of_mem _ hb)⟩
  have hdrop : d.dropColumn c.name = .ok ⟨pre ++ post, d.nrows⟩ := by
    unfold PandasDataFrame.dropColumn
    rw [hsplit, if_pos hanyc, hfilter]
    unfold mkDF
    rw [if_pos hnodup2]
  have hins : PandasDataFrame.insert ⟨pre ++ post, d.nrows⟩ pre.length c.name
      ⟨⟨c.name, c.dtype, defaultIdx d.nrows, c.data⟩⟩ = .ok d := by
    unfold PandasDataFrame.insert
    rw [if_pos (show (⟨⟨c.name, c.dtype, defaultIdx d.nrows, c.data⟩⟩ :
      PandasColumn).series.index
        = PandasDataFrame.indexList ⟨pre ++ post, d.nrows⟩ from rfl)]
    show mkDF ((pre ++ post).take pre.length ++
      (⟨c.name, c.dtype, c.data⟩ : PdCol) :: (pre ++ post).drop pre.length) _ = _
    rw [List.take_left, List.drop_left]
    have hceta : (⟨c.name, c.dtype, c.data⟩ : PdCol) = c := rfl
    rw [hceta, ← hsplit]
    unfold mkDF
    rw [if_pos hnd0]
  simp only [hget, hdrop, Except.bind, bind, hins]

/-- C9 witness: the round-trip theorem applied to the concrete two-column
frame `⟨a: [1], b: [2]⟩` with the second column dropped and re-inserted at
position 1. -/
theorem c9_drop_insert_roundtrip_witness :
    (do
      let col ← PandasDataFrame.getColumnByName
        ⟨[⟨"a", DType.int64, [Val.int 1]⟩, ⟨"b", DType.int64, [Val.int 2]⟩], 1⟩ "b"
      let d2 ← PandasDataFrame.dropColumn
        ⟨[⟨"a", DType.int64, [Val.int 1]⟩, ⟨"b", DType.int64, [Val.int 2]⟩], 1⟩ "b"
      d2.insert 1 "b" col)
      = .ok ⟨[⟨"a", DType.int64, [Val.int 1]⟩, ⟨"b", DType.int64, [Val.int 2]⟩], 1⟩ :=
  c9_drop_insert_roundtrip
    ⟨[⟨"a", DType.int64, [Val.int 1]⟩, ⟨"b", DType.int64, [Val.int 2]⟩], 1⟩
    [⟨"a", DType.int64, [Val.int 1]⟩] [] ⟨"b", DType.int64, [Val.int 2]⟩
    (by decide) rfl

/-- Helper: when the shared aggregation body succeeds, every original column
label appears in the result. -/
theorem aggCall_ok_names (e : EngineAgg) (g : PandasGroupBy)
    (r : PandasDataFrame) (h : aggCall e g = .ok r) :
    ∀ n ∈ g.df.colNames, n ∈ r.colNames := by
  have h : (g.validateResult (aggFrame g e) >>= fun _ =>
      mkDF (aggFrame g e).cols (aggFrame g e).nrows) = Except.ok r := h
  cases hv : g.validateResult (aggFrame g e) with
  | error e' =>
      rw [hv] at h
      exact absurd h (by simp [Except.bind, Bind.bind])
  | ok u =>
      rw [hv] at h
      simp only [Except.bind, Bind.bind] at h
      unfold PandasGroupBy.validateResult at hv
      by_cases hf : failedColumns g (aggFrame g e) ≠ []
      · rw [if_pos hf] at hv
        exact absurd hv (by simp)
      · have hnil : failedColumns g (aggFrame g e) = [] := not_not.mp hf
        unfold failedColumns at hnil
        rw [List.filter_eq_nil_iff] at hnil
        intro n hn
        have hcon : ((aggFrame g e).colNames.contains n) = true := by
          have := hnil n hn
          simp only [Bool.not_eq_true', Bool.not_eq_false] at this
          exact this
        have hmem : n ∈ (aggFrame g e).colNames := by
          rw [List.contains_eq_any_beq] at hcon
          rw [List.any_eq_true] at hcon
          obtain ⟨x, hx, hbeq⟩ := hcon
          exact (eq_of_beq hbeq) ▸ hx
        unfold mkDF at h
        split at h
        · cases h
          exact hmem
        · cases h

/-- Helper: when the engine reduction drops at least one original column,
the shared aggregation body raises `RuntimeError` naming the dropped
columns. -/
theorem aggCall_dropped_runtime (e : EngineAgg) (g : PandasGroupBy)
    (h : failedColumns g (aggFrame g e) ≠ []) :
    aggCall e g = .error (.runtimeError (dropMsg (failedColumns g (aggFrame g e)))) := by
  show (g.validateResult (aggFrame g e) >>= fun _ =>
      mkDF (aggFrame g e).cols (aggFrame g e).nrows)
    = .error (.runtimeError (dropMsg (failedColumns g (aggFrame g e))))
  have hv : g.validateResult (aggFrame g e)
      = .error (.runtimeError (dropMsg (failedColumns g (aggFrame g e)))) := by
    unfold PandasGroupBy.validateResult
    rw [if_pos h]
  rw [hv]
  rfl

/-- C6: every aggregation method either returns a dataframe containing every
original column of the grouped frame, or — whenever the engine reduction
drops some column — raises `RuntimeError` whose message names the dropped
columns (for `any`/`all` once their booleanness guard passes; when it fails
they raise `ValueError` before aggregating).  Quantified over the engine
aggregation capability `e`. -/
theorem c6_aggregation_never_narrows (e : EngineAgg) (g : PandasGroupBy) :
    (∀ f ∈ [PandasGroupBy.anyAgg, PandasGroupBy.allAgg, PandasGroupBy.minAgg,
        PandasGroupBy.maxAgg, PandasGroupBy.sumAgg, PandasGroupBy.prodAgg,
        PandasGroupBy.medianAgg, PandasGroupBy.meanAgg, PandasGroupBy.stdAgg,
        PandasGroupBy.varAgg],
      ∀ r, f e g = .ok r → ∀ n ∈ g.df.colNames, n ∈ r.colNames) ∧
    (failedColumns g (aggFrame g e) ≠ [] →
      (∀ f ∈ [PandasGroupBy.minAgg, PandasGroupBy.maxAgg, PandasGroupBy.sumAgg,
          PandasGroupBy.prodAgg, PandasGroupBy.medianAgg, PandasGroupBy.meanAgg,
          PandasGroupBy.stdAgg, PandasGroupBy.varAgg],
        f e g = .error (.runtimeError (dropMsg (failedColumns g (aggFrame g e))))) ∧
      (boolGuard g = true →
        ∀ f ∈ [PandasGroupBy.anyAgg, PandasGroupBy.allAgg],
          f e g = .error (.runtimeError (dropMsg (failedColumns g (aggFrame g e)))))) := by
  have hguard_ok : ∀ r, boolGuard g = true →
      (if boolGuard g then aggCall e g else .error (.valueError "Expected boolean types")) = .ok r →
      aggCall e g = .ok r := by
    intro r hbg h
    rwa [if_pos hbg] at h
  refine ⟨?_, ?_⟩
  · intro f hf r hok
    simp only [List.mem_cons, List.not_mem_nil, or_false] at hf
    rcases hf with h | h | h | h | h | h | h | h | h | h <;> subst h
    · cases hbg : boolGuard g with
      | false =>
          unfold PandasGroupBy.anyAgg at hok
          rw [if_neg (by simp [hbg])] at hok
          cases hok
      | true => exact aggCall_ok_names e g r (hguard_ok r hbg hok)
    · cases hbg : boolGuard g with
      | false =>
          unfold PandasGroupBy.allAgg at hok
          rw [if_neg (by simp [hbg])] at hok
          cases hok
      | true => exact aggCall_ok_names e g r (hguard_ok r hbg hok)
    all_goals exact aggCall_ok_names e g r hok
  · intro hfail
    refine ⟨?_, ?_⟩
    · intro f hf
      simp only [List.mem_cons, List.not_mem_nil, or_false] at hf
      rcases hf with h | h | h | h | h | h | h | h <;> subst h <;>
        exact aggCall_dropped_runtime e g hfail
    · intro hbg f hf
      simp only [List.mem_cons, List.not_mem_nil, or_false] at hf
      rcases hf with h | h <;> subst h
      · unfold PandasGroupBy.anyAgg
        rw [if_pos hbg]
        exact aggCall_dropped_runtime e g hfail
      · unfold PandasGroupBy.allAgg
        rw [if_pos hbg]
        exact aggCall_dropped_runtime e g hfail

/-- C6 witness: a group of `⟨k: [1], v: [3]⟩` keyed on `k` under an engine
kernel that does not support `int64` value columns: `mean` surfaces the
dropped column `v` as a `RuntimeError`; under a kernel that supports every
dtype, `mean` succeeds and the result keeps both `k` and `v`. -/
theorem c6_aggregation_never_narrows_witness :
    PandasGroupBy.meanAgg
        ⟨fun _ => false, fun _ _ => Val.na⟩
        ⟨⟨[⟨"k", DType.int64, [Val.int 1]⟩, ⟨"v", DType.int64, [Val.int 3]⟩], 1⟩, ["k"]⟩
      = .error (.runtimeError (dropMsg ["v"])) ∧
    ∀ r, PandasGroupBy.meanAgg
        ⟨fun _ => true, fun _ vs => vs.getD 0 Val.na⟩
        ⟨⟨[⟨"k", DType.int64, [Val.int 1]⟩, ⟨"v", DType.int64, [Val.int 3]⟩], 1⟩, ["k"]⟩
      = .ok r → "v" ∈ r.colNames := by
  constructor
  · have h := (c6_aggregation_never_narrows
      ⟨fun _ => false, fun _ _ => Val.na⟩
      ⟨⟨[⟨"k", DType.int64, [Val.int 1]⟩, ⟨"v", DType.int64, [Val.int 3]⟩], 1⟩, ["k"]⟩).2
      (by decide)
    have h2 := h.1 PandasGroupBy.meanAgg (by simp)
    have hfc : failedColumns
        ⟨⟨[⟨"k", DType.int64, [Val.int 1]⟩, ⟨"v", DType.int64, [Val.int 3]⟩], 1⟩, ["k"]⟩
        (aggFrame
          ⟨⟨[⟨"k", DType.int64, [Val.int 1]⟩, ⟨"v", DType.int64, [Val.int 3]⟩], 1⟩, ["k"]⟩
          ⟨fun _ => false, fun _ _ => Val.na⟩) = ["v"] := by decide
    rwa [hfc] at h2
  · intro r hr
    exact (c6_aggregation_never_narrows
      ⟨fun _ => true, fun _ vs => vs.getD 0 Val.na⟩
      ⟨⟨[⟨"k", DType.int64, [Val.int 1]⟩, ⟨"v", DType.int64, [Val.int 3]⟩], 1⟩, ["k"]⟩).1
      PandasGroupBy.meanAgg (by simp) r hr "v" (by decide)

/-- Helper: the per-group counts over the distinct key tuples sum to the
total number of tuples (stated for the `BEq` instance the definitions above
elaborate with). -/
theorem sum_counts_dedup (l : List (List Val)) :
    (l.dedup.map fun t => l.count t).sum = l.length := by
  have hm := List.sum_map_count_dedup_eq_length l
  have hstep : (l.dedup.map fun t => l.count t)
      = l.dedup.map fun t => l.countP (fun x => decide (x = t)) :=
    List.map_congr_left (fun t _ => by
      unfold List.count
      apply List.countP_congr
      intro x _
      simp)
  rw [hstep]
  have hstep2 : (List.map (fun x => @List.count (List Val) instBEqOfDecidableEq x l) l.dedup)
      = l.dedup.map fun t => l.countP (fun x => decide (x = t)) := rfl
  rw [hstep2] at hm
  exact hm

/-- Helper: counting one tuple among the images of a map equals the length of
the preimage filter. -/
theorem count_map_eq_length_filter (f : Nat → List Val) (l : List Nat)
    (t : List Val) :
    (l.map f).count t = (l.filter (fun i => decide (f i = t))).length := by
  induction l with
  | nil => rfl
  | cons x xs ih =>
      rw [List.map_cons, List.count_cons, List.filter_cons, ih]
      by_cases h : f x = t
      · rw [if_pos (by simpa using h)]
        simp [h]
      · rw [if_neg (by simpa using h)]
        simp [h]

/-- C4 counterexample: on the frame `⟨a: [NaN, 1], float64⟩` grouped by
`["a"]` — a valid key sequence — the engine partition drops the null-keyed
row (`dropna=True`, the pandas default), so `size()` has the single group
`[1]` with count `1` while the frame has two rows: the counts do not sum to
the row count. -/
theorem c4_counterexample_null_key_rows_dropped :
    PandasDataFrame.groupby ⟨[⟨"a", DType.float64, [Val.nan, Val.int 1]⟩], 2⟩ ["a"]
      = .ok ⟨⟨[⟨"a", DType.float64, [Val.nan, Val.int 1]⟩], 2⟩, ["a"]⟩ ∧
    (PandasGroupBy.size ⟨⟨[⟨"a", DType.float64, [Val.nan, Val.int 1]⟩], 2⟩, ["a"]⟩).data
      = [Val.int 1] ∧
    (groupCounts ⟨[⟨"a", DType.float64, [Val.nan, Val.int 1]⟩], 2⟩ ["a"]).sum = 1 ∧
    (⟨[⟨"a", DType.float64, [Val.nan, Val.int 1]⟩], 2⟩ : PandasDataFrame).nrows = 2 := by
  refine ⟨rfl, ?_, ?_, rfl⟩ <;> decide

/-- C4 (amended): for a frame `d` whose `groupby(keys)` succeeds, `size()`
is indexed by the distinct key tuples of the rows the engine partition keeps
(those without a null key — `dropna=True`), with one row per group whose
value is that group's row count among the kept rows; the counts sum to the
number of kept rows, hence to `d`'s row count exactly when no key value is
null. -/
theorem c4_groupby_size_amended (d : PandasDataFrame) (keys : List String)
    (g : PandasGroupBy) (hgb : d.groupby keys = .ok g) :
    g.size.index = (groupKeys d keys).map Idx.keys ∧
    g.size.data = (groupCounts d keys).map (fun n => Val.int (n : Int)) ∧
    (groupKeys d keys).Nodup ∧
    (∀ t, t ∈ groupKeys d keys ↔ ∃ i ∈ keptRows d keys, keyVals d keys i = t) ∧
    groupCounts d keys
      = (groupKeys d keys).map
          (fun t => ((keptRows d keys).filter
            (fun i => decide (keyVals d keys i = t))).length) ∧
    (groupCounts d keys).sum = (keptRows d keys).length ∧
    ((∀ i < d.nrows, ∀ v ∈ keyVals d keys i, isNullVal v = false) →
      (groupCounts d keys).sum = d.nrows) := by
  have hg : g = ⟨d, keys⟩ := by
    unfold PandasDataFrame.groupby at hgb
    cases hfind : keys.find? (fun k => !(d.colNames.contains k)) with
    | some k => rw [hfind] at hgb; cases hgb
    | none =>
        rw [hfind] at hgb
        by_cases hemp : keys.isEmpty = true
        · rw [if_pos hemp] at hgb; cases hgb
        · rw [if_neg hemp] at hgb
          injection hgb with h
          exact h.symm
  subst hg
  have hsum : (groupCounts d keys).sum = (keptRows d keys).length := by
    unfold groupCounts groupKeys
    rw [sum_counts_dedup, List.length_map]
  refine ⟨rfl, rfl, List.nodup_dedup _, ?_, ?_, hsum, ?_⟩
  · intro t
    unfold groupKeys
    rw [List.mem_dedup, List.mem_map]
  · unfold groupCounts
    apply List.map_congr_left
    intro t _
    exact count_map_eq_length_filter (keyVals d keys) (keptRows d keys) t
  · intro hnull
    rw [hsum]
    unfold keptRows
    rw [List.filter_eq_self.mpr, List.length_range]
    intro i hi
    rw [List.mem_range] at hi
    simp only [Bool.not_eq_true']
    rw [List.any_eq_false]
    intro v hv
    rw [hnull i hi v hv]
    simp

/-- C4 witness: the amended theorem applied to `⟨a: [1, 2, 1]⟩` grouped by
`["a"]`: no key is null, so the group counts sum to the row count 3. -/
theorem c4_groupby_size_amended_witness :
    (groupCounts ⟨[⟨"a", DType.int64, [Val.int 1, Val.int 2, Val.int 1]⟩], 3⟩ ["a"]).sum
      = (⟨[⟨"a", DType.int64, [Val.int 1, Val.int 2, Val.int 1]⟩], 3⟩ : PandasDataFrame).nrows :=
  (c4_groupby_size_amended
    ⟨[⟨"a", DType.int64, [Val.int 1, Val.int 2, Val.int 1]⟩], 3⟩ ["a"]
    ⟨⟨[⟨"a", DType.int64, [Val.int 1, Val.int 2, Val.int 1]⟩], 3⟩, ["a"]⟩
    rfl).2.2.2.2.2.2 (by decide)

/-- Helper: strict order on encoded cells is irreflexive. -/
theorem pairLtE_irrefl (a : Int × Int) : pairLtE a a = false := by
  simp [pairLtE]

/-- Helper: strict order on encoded cells is asymmetric. -/
theorem pairLtE_asymm {a b : Int × Int} (h1 : pairLtE a b = true)
    (h2 : pairLtE b a = true) : False := by
  simp only [pairLtE, Bool.or_eq_true, Bool.and_eq_true, decide_eq_true_eq] at h1 h2
  omega

/-- Helper: strict order on encoded cells is transitive. -/
theorem pairLtE_trans {a b c : Int × Int} (h1 : pairLtE a b = true)
    (h2 : pairLtE b c = true) : pairLtE a c = true := by
  simp only [pairLtE, Bool.or_eq_true, Bool.and_eq_true, decide_eq_true_eq] at h1 h2 ⊢
  omega

/-- Helper: encoded cells that are unrelated either way are equal. -/
theorem pairLtE_conn {a b : Int × Int} (h1 : pairLtE a b = false)
    (h2 : pairLtE b a = false) : a = b := by
  obtain ⟨a1, a2⟩ := a
  obtain ⟨b1, b2⟩ := b
  simp only [pairLtE, Bool.or_eq_false_iff, Bool.and_eq_false_iff,
    decide_eq_false_iff_not] at h1 h2
  simp only [Prod.mk.injEq]
  rcases h1 with ⟨h1a, h1b⟩
  rcases h2 with ⟨h2a, h2b⟩
  constructor <;> omega

/-- Helper: lexicographic strict order on encoded lists is irreflexive. -/
theorem lexLt_irrefl : ∀ l : List (Int × Int), lexLt l l = false
  | [] => rfl
  | a :: as => by
      simp [lexLt, pairLtE_irrefl, lexLt_irrefl as]

/-- Helper: lexicographic strict order on encoded lists is asymmetric. -/
theorem lexLt_asymm : ∀ {x y : List (Int × Int)}, lexLt x y = true →
    lexLt y x = true → False
  | [], [], h1, _ => by cases h1
  | [], _ :: _, _, h2 => by cases h2
  | _ :: _, [], h1, _ => by cases h1
  | a :: as, b :: bs, h1, h2 => by
      simp only [lexLt, Bool.or_eq_true, Bool.and_eq_true, decide_eq_true_eq] at h1 h2
      rcases h1 with h1 | ⟨hab, h1⟩
      · rcases h2 with h2 | ⟨hba, h2⟩
        · exact pairLtE_asymm h1 h2
        · rw [hba] at h1
          rw [pairLtE_irrefl a] at h1
          cases h1
      · rcases h2 with h2 | ⟨hba, h2⟩
        · rw [hab] at h2
          rw [pairLtE_irrefl b] at h2
          cases h2
        · exact lexLt_asymm h1 h2

/-- Helper: lexicographic strict order on encoded lists is transitive. -/
theorem lexLt_trans : ∀ {x y z : List (Int × Int)}, lexLt x y = true →
    lexLt y z = true → lexLt x z = true
  | [], [], _, h1, _ => by cases h1
  | [], _ :: _, [], _, h2 => by cases h2
  | [], _ :: _, _ :: _, _, _ => rfl
  | _ :: _, [], _, h1, _ => by cases h1
  | _ :: _, _ :: _, [], _, h2 => by cases h2
  | a :: as, b :: bs, c :: cs, h1, h2 => by
      simp only [lexLt, Bool.or_eq_true, Bool.and_eq_true, decide_eq_true_eq] at h1 h2 ⊢
      rcases h1 with h1 | ⟨hab, h1⟩
      · rcases h2 with h2 | ⟨hbc, h2⟩
        · exact Or.inl (pairLtE_trans h1 h2)
        · exact Or.inl (hbc ▸ h1)
      · rcases h2 with h2 | ⟨hbc, h2⟩
        · exact Or.inl (hab ▸ h2)
        · exact Or.inr ⟨hab.trans hbc, lexLt_trans h1 h2⟩

/-- Helper: encoded lists unrelated either way are equal. -/
theorem lexLt_conn : ∀ {x y : List (Int × Int)}, lexLt x y = false →
    lexLt y x = false → x = y
  | [], [], _, _ => rfl
  | [], _ :: _, h1, _ => by cases h1
  | _ :: _, [], _, h2 => by cases h2
  | a :: as, b :: bs, h1, h2 => by
      simp only [lexLt, Bool.or_eq_false_iff, Bool.and_eq_false_iff,
        decide_eq_false_iff_not] at h1 h2
      rcases h1 with ⟨h1a, h1b⟩
      rcases h2 with ⟨h2a, h2b⟩
      have hab : a = b := pairLtE_conn h1a h2a
      rcases h1b with h1b | h1b
      · exact absurd hab h1b
      · rcases h2b with h2b | h2b
        · exact absurd hab.symm h2b
        · rw [hab, lexLt_conn h1b h2b]

/-- Helper: the cell encoding is injective. -/
theorem enc_injective : Function.Injective Val.enc := by
  intro a b h
  cases a <;> cases b <;> simp only [Val.enc, Prod.mk.injEq] at h <;>
    first
      | rfl
      | exact absurd h.1 (by decide)
      | exact congrArg Val.int h.2
      | (rename_i x y; cases x <;> cases y <;> simp_all)

/-- Helper: the strict tuple order is irreflexive. -/
theorem tupleLt_irrefl (x : List Val) : tupleLt x x = false :=
  lexLt_irrefl _

/-- Helper: the strict tuple order is asymmetric. -/
theorem tupleLt_asymm {x y : List Val} (h1 : tupleLt x y = true)
    (h2 : tupleLt y x = true) : False :=
  lexLt_asymm h1 h2

/-- Helper: the strict tuple order is transitive. -/
theorem tupleLt_trans {x y z : List Val} (h1 : tupleLt x y = true)
    (h2 : tupleLt y z = true) : tupleLt x z = true :=
  lexLt_trans h1 h2

/-- Helper: tuples unrelated either way are equal. -/
theorem tupleLt_conn {x y : List Val} (h1 : tupleLt x y = false)
    (h2 : tupleLt y x = false) : x = y :=
  List.map_injective_iff.mpr enc_injective (lexLt_conn h1 h2)

/-- Helper: the stable row order is total. -/
theorem rowLe_total (p q : List Val × Nat) :
    rowLe p q = true ∨ rowLe q p = true := by
  cases hpq : tupleLt p.1 q.1 with
  | true => exact Or.inl (by simp [rowLe, hpq])
  | false =>
      cases hqp : tupleLt q.1 p.1 with
      | true => exact Or.inr (by simp [rowLe, hqp])
      | false =>
          have heq : p.1 = q.1 := tupleLt_conn hpq hqp
          rcases Nat.le_total p.2 q.2 with h | h
          · exact Or.inl (by simp [rowLe, hpq, heq, h])
          · exact Or.inr (by simp [rowLe, hqp, heq.symm, h])

/-- Helper: the stable row order is transitive. -/
theorem rowLe_trans (p q r : List Val × Nat) (h1 : rowLe p q = true)
    (h2 : rowLe q r = true) : rowLe p r = true := by
  simp only [rowLe, Bool.or_eq_true, Bool.and_eq_true, decide_eq_true_eq] at h1 h2 ⊢
  rcases h1 with h1 | ⟨h1e, h1n⟩
  · rcases h2 with h2 | ⟨h2e, h2n⟩
    · exact Or.inl (tupleLt_trans h1 h2)
    · exact Or.inl (h2e ▸ h1)
  · rcases h2 with h2 | ⟨h2e, h2n⟩
    · exact Or.inl (h1e ▸ h2)
    · exact Or.inr ⟨h1e.trans h2e, h1n.trans h2n⟩

/-- Helper: inserting into a list is a permutation of consing. -/
theorem insertLe_perm (le : α → α → Bool) (x : α) :
    ∀ l : List α, (insertLe le x l).Perm (x :: l)
  | [] => List.Perm.refl _
  | y :: ys => by
      unfold insertLe
      by_cases h : le x y = true
      · rw [if_pos h]
      · rw [if_neg h]
        exact ((insertLe_perm le x ys).cons y).trans (List.Perm.swap x y ys)

/-- Helper: the insertion sort permutes its input. -/
theorem sortByLe_perm (le : α → α → Bool) :
    ∀ l : List α, (sortByLe le l).Perm l
  | [] => List.Perm.refl _
  | x :: xs =>
      (insertLe_perm le x (sortByLe le xs)).trans ((sortByLe_perm le xs).cons x)

/-- Helper: inserting into a sorted list keeps it sorted, for a total
transitive boolean order. -/
theorem insertLe_pairwise (le : α → α → Bool)
    (htot : ∀ a b, le a b = true ∨ le b a = true)
    (htrans : ∀ a b c, le a b = true → le b c = true → le a c = true)
    (x : α) : ∀ l : List α, l.Pairwise (fun a b => le a b = true) →
      (insertLe le x l).Pairwise (fun a b => le a b = true)
  | [], _ => by simp [insertLe]
  | y :: ys, h => by
      rcases List.pairwise_cons.mp h with ⟨hy, hys⟩
      unfold insertLe
      by_cases hxy : le x y = true
      · rw [if_pos hxy]
        apply List.pairwise_cons.mpr
        refine ⟨?_, h⟩
        intro z hz
        rcases List.mem_cons.mp hz with rfl | hz'
        · exact hxy
        · exact htrans x y z hxy (hy z hz')
      · rw [if_neg hxy]
        apply List.pairwise_cons.mpr
        have hyx : le y x = true := (htot x y).resolve_left hxy
        refine ⟨?_, insertLe_pairwise le htot htrans x ys hys⟩
        intro z hz
        rcases List.mem_cons.mp ((insertLe_perm le x ys).mem_iff.mp hz) with rfl | hz'
        · exact hyx
        · exact hy z hz'

/-- Helper: the insertion sort under a total transitive boolean order yields
a pairwise-ordered list. -/
theorem sortByLe_pairwise (le : α → α → Bool)
    (htot : ∀ a b, le a b = true ∨ le b a = true)
    (htrans : ∀ a b c, le a b = true → le b c = true → le a c = true) :
    ∀ l : List α, (sortByLe le l).Pairwise (fun a b => le a b = true)
  | [] => List.Pairwise.nil
  | x :: xs =>
      insertLe_pairwise le htot htrans x (sortByLe le xs)
        (sortByLe_pairwise le htot htrans xs)

/-- C8: what the code guarantees at the failing input's path.  With every
key present, `sortedIndices` succeeds and returns the positions of the
key-sorted rows.  With more than one key (the stable `np.lexsort` path) the
positions are a permutation of `0..nrows-1`, the rows are ascending in the
key tuples, and tied tuples keep their original relative order
(stability).  With a single key, `sort_values` runs `nargsort` under the
engine's default `kind="quicksort"`, which guarantees only an ascending
permutation: the theorem is parametric over every such engine behaviour —
any output that permutes the rows yields a permutation of the positions —
and imposes no stability constraint, which is the divergence from the
specification's "stable" contract (numpy documents quicksort as not
stable and reorders tied entries once the input exceeds its small-array
insertion-sort cutoff). -/
theorem c8_sorted_indices_dispatch
    (eng : List (List Val × Nat) → List (List Val × Nat))
    (d : PandasDataFrame) (keys : List String)
    (hkeys : keys.find? (fun k => !(d.colNames.contains k)) = none) :
    sortedIndices eng d keys
      = .ok ⟨"", .int64,
          (if 1 < keys.length then sortByLe rowLe (taggedRows d keys)
           else eng (taggedRows d keys)).map (fun p => Idx.pos p.2),
          (if 1 < keys.length then sortByLe rowLe (taggedRows d keys)
           else eng (taggedRows d keys)).map (fun p => Val.int (p.2 : Int))⟩ ∧
    (1 < keys.length →
      ((sortByLe rowLe (taggedRows d keys)).map Prod.snd).Perm (List.range d.nrows) ∧
      (sortByLe rowLe (taggedRows d keys)).Pairwise
        (fun p q => tupleLe p.1 q.1 = true) ∧
      (sortByLe rowLe (taggedRows d keys)).Pairwise
        (fun p q => p.1 = q.1 → p.2 ≤ q.2)) ∧
    ((eng (taggedRows d keys)).Perm (taggedRows d keys) →
      ((eng (taggedRows d keys)).map Prod.snd).Perm (List.range d.nrows)) := by
  have hmap_range : (taggedRows d keys).map Prod.snd = List.range d.nrows := by
    unfold taggedRows
    rw [List.map_map]
    have hcomp : (Prod.snd ∘ fun i : Nat => (keyVals d keys i, i)) = id := rfl
    rw [hcomp, List.map_id]
  have hpw : (sortByLe rowLe (taggedRows d keys)).Pairwise
      (fun p q => rowLe p q = true) :=
    sortByLe_pairwise rowLe rowLe_total rowLe_trans (taggedRows d keys)
  refine ⟨?_, ?_, ?_⟩
  · simp only [sortedIndices]
    rw [hkeys]
  · intro _
    refine ⟨?_, ?_, ?_⟩
    · exact hmap_range ▸ (sortByLe_perm rowLe (taggedRows d keys)).map Prod.snd
    · refine hpw.imp ?_
      intro p q h
      simp only [rowLe, Bool.or_eq_true, Bool.and_eq_true, decide_eq_true_eq] at h
      rcases h with h | ⟨he, _⟩
      · cases hq : tupleLt q.1 p.1 with
        | false => simp [tupleLe, hq]
        | true => exact (tupleLt_asymm h hq).elim
      · unfold tupleLe
        rw [← he, tupleLt_irrefl]
        rfl
    · refine hpw.imp ?_
      intro p q h he
      simp only [rowLe, Bool.or_eq_true, Bool.and_eq_true, decide_eq_true_eq] at h
      rcases h with h | ⟨_, hn⟩
      · rw [he, tupleLt_irrefl] at h
        cases h
      · exact hn
  · intro hperm
    exact hmap_range ▸ hperm.map Prod.snd

/-- C8 witness: the dispatch theorem applied to the two-key frame
`⟨a: [2, 1], b: [3, 4]⟩` sorted by `["a", "b"]` (the stable lexsort path):
the returned positions are `[1, 0]`, a permutation of `0..1`. -/
theorem c8_sorted_indices_dispatch_witness :
    sortedIndices (fun l => l)
        ⟨[⟨"a", DType.int64, [Val.int 2, Val.int 1]⟩,
          ⟨"b", DType.int64, [Val.int 3, Val.int 4]⟩], 2⟩ ["a", "b"]
      = .ok ⟨"", .int64, [Idx.pos 1, Idx.pos 0], [Val.int 1, Val.int 0]⟩ ∧
    ((sortByLe rowLe (taggedRows
        ⟨[⟨"a", DType.int64, [Val.int 2, Val.int 1]⟩,
          ⟨"b", DType.int64, [Val.int 3, Val.int 4]⟩], 2⟩ ["a", "b"])).map
      Prod.snd).Perm (List.range 2) :=
  ⟨((c8_sorted_indices_dispatch (fun l => l)
      ⟨[⟨"a", DType.int64, [Val.int 2, Val.int 1]⟩,
        ⟨"b", DType.int64, [Val.int 3, Val.int 4]⟩], 2⟩ ["a", "b"]
      (by decide)).1).trans (by rfl),
   ((c8_sorted_indices_dispatch (fun l => l)
      ⟨[⟨"a", DType.int64, [Val.int 2, Val.int 1]⟩,
        ⟨"b", DType.int64, [Val.int 3, Val.int 4]⟩], 2⟩ ["a", "b"]
      (by decide)).2.1 (by decide)).1⟩
